import Mathlib

/-!
Verification of the FileDrive backend (earth_pulse_case repository).

The Python backend is shallowly embedded in Lean:

* strings are `List Char` (Python `str` is a sequence of characters);
* file bytes are `List Nat`;
* the MinIO bucket is an association list keyed by object name;
* the MongoDB `files` collection is a list of `FileDoc` records;
* fallible library calls (object put/remove, document insert/update/delete,
  reading the request body) are modelled by boolean oracles: `true` means
  the call succeeds, `false` that it raises, which the service code turns
  into an `HTTPException`;
* each service operation returns the `Except` outcome together with the
  resulting store state, so frame and no-partial-write properties are
  statements about the returned state.

All definitions follow `src/backend/app` (services/file_service.py,
database/connection.py, config/settings.py, application.py).
-/

namespace FileDrive

/-- Model of `fastapi.HTTPException`, reduced to its status code (the detail
message plays no role in the claims). -/
structure HTTPException where
  status : Nat
deriving DecidableEq, Repr

/-- One document of the MongoDB `files` collection, as built by
`FileService.upload_file` (the Mongo-internal `_id` is omitted;
`upload_date` is an abstract timestamp). -/
structure FileDoc where
  file_id : List Char
  name : List Char
  size : Nat
  content_type : List Char
  upload_date : Nat
  extension : List Char
deriving DecidableEq, Repr

/-- Combined state of the two stores: the MinIO bucket contents and the
MongoDB `files` collection. -/
structure StoreState where
  objects : List (List Char × List Nat)
  docs : List FileDoc
deriving DecidableEq, Repr

/-- Model of `minio_client.put_object(bucket, key, data)`: overwrites the object
stored under `key`. -/
def putObject (objs : List (List Char × List Nat)) (key : List Char)
    (v : List Nat) : List (List Char × List Nat) :=
  (key, v) :: objs.filter (fun p => p.1 ≠ key)

/-- Model of `minio_client.get_object(bucket, key)`: `none` models the
`S3Error` raised when the key is absent. -/
def getObject : List (List Char × List Nat) → List Char → Option (List Nat)
  | [], _ => none
  | p :: ps, key => if p.1 = key then some p.2 else getObject ps key

/-- Model of `minio_client.remove_object(bucket, key)`. -/
def removeObject (objs : List (List Char × List Nat)) (key : List Char) :
    List (List Char × List Nat) :=
  objs.filter (fun p => p.1 ≠ key)

/-- Model of `files_collection.find_one` by `file_id`: first matching document. -/
def findOne : List FileDoc → List Char → Option FileDoc
  | [], _ => none
  | d :: ds, fid => if d.file_id = fid then some d else findOne ds fid

/-- Number of documents of the collection carrying a given `file_id`
(used to state that generated UUIDs are unique keys). -/
def countMatching : List FileDoc → List Char → Nat
  | [], _ => 0
  | d :: ds, fid => (if d.file_id = fid then 1 else 0) + countMatching ds fid

/-- Model of `files_collection.update_one` setting the name:
updates the name of the first matching document. -/
def updateName : List FileDoc → List Char → List Char → List FileDoc
  | [], _, _ => []
  | d :: ds, fid, nm =>
    if d.file_id = fid then { d with name := nm } :: ds
    else d :: updateName ds fid nm

/-- Model of `files_collection.delete_one` by `file_id`: removes the first
matching document. -/
def deleteOne : List FileDoc → List Char → List FileDoc
  | [], _ => []
  | d :: ds, fid => if d.file_id = fid then ds else d :: deleteOne ds fid

/-- The `dangerous_chars` list of `FileService._sanitize_filename`. -/
def dangerous_chars : List Char :=
  ['<', '>', ':', '"', '|', '?', '*', '\\', '/']

/-- Python `str.replace(c, "_")` for a single character pattern. -/
def pyReplaceChar (l : List Char) (c : Char) : List Char :=
  l.map (fun x => if x = c then '_' else x)

/-- Model of `os.path.basename` on POSIX: the part of the path after the last
`'/'` (the accumulator is reset each time a separator is seen). -/
def pyBasename (l : List Char) : List Char :=
  l.foldl (fun acc c => if c = '/' then [] else acc ++ [c]) []

/-- Model of `os.path.splitext`: splits at the last dot, provided some character
strictly before it is not a dot (so names made only of leading dots have
no extension). -/
def splitext (l : List Char) : List Char × List Char :=
  let k := (l.reverse.takeWhile (fun c => c ≠ '.')).length
  if k = l.length then (l, [])
  else
    let pos := l.length - k - 1
    let name := l.take pos
    let ext := l.drop pos
    if name.any (fun c => c ≠ '.') then (name, ext) else (l, [])

/-- Python slice `l[:n]` for a possibly negative bound `n`. -/
def pySlice (l : List Char) (n : Int) : List Char :=
  if 0 ≤ n then l.take n.toNat else l.take (l.length - (-n).toNat)

/-- The length cap of `_sanitize_filename`: names longer than 255
characters are cut to `name[:255-len(ext)] + ext`. -/
def truncate255 (l : List Char) : List Char :=
  if 255 < l.length then
    pySlice (splitext l).1 (255 - ((splitext l).2.length : Int)) ++ (splitext l).2
  else l

/-- Embeds `FileService._sanitize_filename`. -/
def sanitize_filename (filename : List Char) : List Char :=
  if filename = [] then "unnamed_file".data
  else truncate255 (dangerous_chars.foldl pyReplaceChar (pyBasename filename))

/-- The allow-list test of `FileService._validate_file_type`: an entry
ending in `/*` matches every content type starting with the part of the
entry before its first `'/'` followed by `'/'`; any other entry must be
equal to the content type. -/
def isAllowedType (allowed : List (List Char)) (ct : List Char) : Bool :=
  allowed.any (fun a =>
    if ['/', '*'].isSuffixOf a then
      (a.takeWhile (fun c => c ≠ '/') ++ ['/']).isPrefixOf ct
    else ct = a)

/-- Embeds `FileService._validate_file_type`: empty content type and disallowed
content type both raise status 400. -/
def validate_file_type (allowed : List (List Char)) (ct : List Char) :
    Except HTTPException Unit :=
  if ct = [] then .error ⟨400⟩
  else if isAllowedType allowed ct then .ok () else .error ⟨400⟩

/-- Embeds `FileService._validate_file_size`: raises status 413 when the size
exceeds `settings.max_file_size`. -/
def validate_file_size (maxSize : Nat) (n : Nat) : Except HTTPException Unit :=
  if maxSize < n then .error ⟨413⟩ else .ok ()

/-- Embeds `FileService.upload_file`.  Arguments beyond the request data:
`file_id` is the generated UUID string, `now` the `datetime.utcnow()`
timestamp, and `readOk`/`putOk`/`insertOk` are the success oracles for
`file.read()`, `put_object` and `insert_one`. -/
def upload_file (maxSize : Nat) (allowed : List (List Char))
    (filename content_type : List Char) (content : List Nat)
    (file_id : List Char) (now : Nat)
    (readOk putOk insertOk : Bool) (s : StoreState) :
    Except HTTPException FileDoc × StoreState :=
  if filename = [] then (.error ⟨400⟩, s)
  else
    match validate_file_type allowed content_type with
    | .error e => (.error e, s)
    | .ok _ =>
      if readOk = false then (.error ⟨400⟩, s)
      else
        match validate_file_size maxSize content.length with
        | .error e => (.error e, s)
        | .ok _ =>
          let sanitized := sanitize_filename filename
          let ext := (splitext sanitized).2
          if putOk = false then (.error ⟨500⟩, s)
          else
            let s1 : StoreState :=
              { s with objects := putObject s.objects file_id content }
            if insertOk = false then (.error ⟨500⟩, s1)
            else
              let doc : FileDoc :=
                { file_id := file_id, name := sanitized,
                  size := content.length, content_type := content_type,
                  upload_date := now, extension := ext }
              (.ok doc, { s1 with docs := s1.docs ++ [doc] })

/-- Embeds `FileService.download_file`: metadata lookup then object read; a
missing object raises `S3Error`, surfaced as status 500. -/
def download_file (fid : List Char) (s : StoreState) :
    Except HTTPException (List Nat × FileDoc) :=
  if fid = [] then .error ⟨400⟩
  else
    match findOne s.docs fid with
    | none => .error ⟨404⟩
    | some doc =>
      match getObject s.objects fid with
      | none => .error ⟨500⟩
      | some bytes => .ok (bytes, doc)

/-- Embeds `FileService.update_file_name`; `updateOk` is the success oracle for
`update_one`. -/
def update_file_name (fid new_name : List Char) (updateOk : Bool)
    (s : StoreState) : Except HTTPException Unit × StoreState :=
  if fid = [] then (.error ⟨400⟩, s)
  else if new_name = [] then (.error ⟨400⟩, s)
  else
    let sanitized := sanitize_filename new_name
    match findOne s.docs fid with
    | none => (.error ⟨404⟩, s)
    | some _ =>
      if updateOk = false then (.error ⟨500⟩, s)
      else (.ok (), { s with docs := updateName s.docs fid sanitized })

/-- Embeds `FileService.delete_file`: object removal then document deletion;
`removeOk`/`deleteOk` are the success oracles of the two store calls. -/
def delete_file (fid : List Char) (removeOk deleteOk : Bool)
    (s : StoreState) : Except HTTPException Unit × StoreState :=
  if fid = [] then (.error ⟨400⟩, s)
  else
    match findOne s.docs fid with
    | none => (.error ⟨404⟩, s)
    | some _ =>
      if removeOk = false then (.error ⟨500⟩, s)
      else
        let s1 : StoreState := { s with objects := removeObject s.objects fid }
        if deleteOk = false then (.error ⟨500⟩, s1)
        else (.ok (), { s1 with docs := deleteOne s1.docs fid })

/-- The whitespace characters stripped by Python `str.strip()`. -/
def pyWhitespace : List Char := [' ', '\t', '\n', '\r', '\x0b', '\x0c']

/-- Python `str.strip()`. -/
def pyStrip (l : List Char) : List Char :=
  ((l.dropWhile (fun c => c ∈ pyWhitespace)).reverse.dropWhile
      (fun c => c ∈ pyWhitespace)).reverse

/-- Python `str.split(",")`. -/
def splitComma : List Char → List (List Char)
  | [] => [[]]
  | c :: rest =>
    if c = ',' then [] :: splitComma rest
    else
      match splitComma rest with
      | [] => [[c]]
      | h :: t => (c :: h) :: t

/-- Embeds `Settings.allowed_file_types_list`: the literal string `*/*` yields
the one-element list `["*/*"]`; anything else is split on commas,
stripped, with empty entries dropped. -/
def allowed_file_types_list (raw : List Char) : List (List Char) :=
  if raw = "*/*".data then ["*/*".data]
  else ((splitComma raw).map pyStrip).filter (fun x => x ≠ [])

/-- The dictionary returned by `DatabaseManager.health_check`, reduced to
the fields the claims mention. -/
structure HealthStatus where
  mongodb_connected : Bool
  mongodb_status : List Char
  minio_connected : Bool
  minio_status : List Char
  overall_healthy : Bool
  overall_status : List Char
deriving DecidableEq, Repr

/-- Embeds `DatabaseManager.health_check`: each store is pinged only when its
connected flag is set; `mongoPing`/`minioPing` are the ping success
oracles.  Overall health is the disjunction of the two per-store
connected results (connection.py lines 194-199). -/
def db_health_check (mongoConn mongoPing minioConn minioPing : Bool) :
    HealthStatus :=
  let mOk := mongoConn && mongoPing
  let nOk := minioConn && minioPing
  let overall := mOk || nOk
  { mongodb_connected := mOk
    mongodb_status := if mOk then "healthy".data else "disconnected".data
    minio_connected := nOk
    minio_status := if nOk then "healthy".data else "disconnected".data
    overall_healthy := overall
    overall_status := if overall then "healthy".data else "unhealthy".data }

/-- The `/health` endpoint of `application.py` (non-exception path):
returns the reported overall status string and the HTTP status code,
derived from `db_health_check`'s overall flag. -/
def app_health (mongoConn mongoPing minioConn minioPing : Bool) :
    List Char × Nat :=
  let hs := db_health_check mongoConn mongoPing minioConn minioPing
  (if hs.overall_healthy then "healthy".data else "degraded".data,
   if hs.overall_healthy then 200 else 503)

/-- Result of one store's retry loop in
`DatabaseManager.connect_with_retry`: the `success` and `attempts`
fields of the per-store result dictionary, plus the list of back-off
delays slept, in order. -/
structure RetryResult where
  success : Bool
  attempts : Nat
  delays : List ℚ
deriving DecidableEq, Repr

/-- One store's loop of `connect_with_retry`: `fuel` is the number of
remaining iterations (initially `max_retries`), `attempt` the 0-based
iteration index, `ds` the delays slept so far.  Before every iteration
with `attempt > 0` the loop sleeps `initial_delay * 2 ^ (attempt - 1)`;
`ok attempt` tells whether the connect call of that iteration succeeds. -/
def connectLoop (ok : Nat → Bool) (d : ℚ) :
    Nat → Nat → List ℚ → RetryResult
  | 0, attempt, ds => ⟨false, attempt, ds⟩
  | fuel + 1, attempt, ds =>
    let ds2 := if attempt = 0 then ds else ds ++ [d * 2 ^ (attempt - 1)]
    if ok attempt then ⟨true, attempt + 1, ds2⟩
    else connectLoop ok d fuel (attempt + 1) ds2

/-- The pair of per-store results returned by `connect_with_retry`. -/
structure ConnectResults where
  mongodb : RetryResult
  minio : RetryResult
deriving DecidableEq, Repr

/-- Embeds `DatabaseManager.connect_with_retry`: runs the MongoDB loop, then
the MinIO loop, unconditionally. -/
def connect_with_retry (mongoOk minioOk : Nat → Bool) (d : ℚ)
    (maxRetries : Nat) : ConnectResults :=
  ⟨connectLoop mongoOk d maxRetries 0 [], connectLoop minioOk d maxRetries 0 []⟩

/-- Closed form of the delays slept by iterations `a, a+1, ..., a+n-1`
of `connectLoop`. -/
def geomDelays (d : ℚ) : Nat → Nat → List ℚ
  | _, 0 => []
  | a, n + 1 =>
    (if a = 0 then [] else [d * 2 ^ (a - 1)]) ++ geomDelays d (a + 1) n

/-! ## Helper lemmas -/

theorem getObject_putObject (objs : List (List Char × List Nat))
    (key : List Char) (v : List Nat) :
    getObject (putObject objs key v) key = some v := by
  simp [putObject, getObject]

theorem validate_type_of_disallowed (allowed : List (List Char))
    (ct : List Char) (h : isAllowedType allowed ct = false) :
    validate_file_type allowed ct = .error ⟨400⟩ := by
  unfold validate_file_type
  by_cases hct : ct = []
  · simp [hct]
  · simp [hct, h]

/-! ## Claim theorems -/

/-- C1.  The claim says the health endpoint reports `healthy` only when
both stores respond, and in particular never reports `healthy` when
exactly one store is connected and responding.  The code computes the
overall flag as a disjunction (connection.py lines 194-197), so with
MongoDB connected and answering its ping while MinIO is disconnected,
`health_check` reports overall status `healthy` and the `/health`
endpoint returns status string `healthy` with HTTP 200. -/
theorem health_single_store_reports_healthy :
    (db_health_check true true false false).mongodb_connected = true
    ∧ (db_health_check true true false false).minio_connected = false
    ∧ (db_health_check true true false false).overall_status = "healthy".data
    ∧ app_health true true false false = ("healthy".data, 200) := by
  decide

/-- C4.  An upload whose content type fails the allow-list test of
`_validate_file_type` is rejected with status 400 and the store state is
returned unchanged: no object is written and no document is inserted. -/
theorem disallowed_type_upload_rejected (maxSize : Nat)
    (allowed : List (List Char)) (filename content_type : List Char)
    (content : List Nat) (fid : List Char) (now : Nat)
    (readOk putOk insertOk : Bool) (s : StoreState)
    (h : isAllowedType allowed content_type = false) :
    upload_file maxSize allowed filename content_type content fid now
      readOk putOk insertOk s = (.error ⟨400⟩, s) := by
  unfold upload_file
  by_cases hf : filename = []
  · simp [hf]
  · simp [hf, validate_type_of_disallowed allowed content_type h]

/-- Witness for C4 at a concrete disallowed upload. -/
theorem disallowed_type_upload_rejected_witness :
    upload_file 10 ["text/plain".data] "a.txt".data "image/png".data [1]
      "id1".data 0 true true true ⟨[], []⟩ = (.error ⟨400⟩, ⟨[], []⟩) :=
  disallowed_type_upload_rejected 10 ["text/plain".data] "a.txt".data
    "image/png".data [1] "id1".data 0 true true true ⟨[], []⟩ (by decide)

/-- C3.  An upload whose content length exceeds `settings.max_file_size`
(and which reaches the size check: filename present, content type
allowed, body read successfully) is rejected with status 413 and the
store state is returned unchanged — no object written, no document
inserted. -/
theorem oversize_upload_rejected_413 (maxSize : Nat)
    (allowed : List (List Char)) (filename content_type : List Char)
    (content : List Nat) (fid : List Char) (now : Nat)
    (putOk insertOk : Bool) (s : StoreState)
    (hname : filename ≠ [])
    (htype : validate_file_type allowed content_type = .ok ())
    (hsize : maxSize < content.length) :
    upload_file maxSize allowed filename content_type content fid now
      true putOk insertOk s = (.error ⟨413⟩, s) := by
  unfold upload_file
  have hv : validate_file_size maxSize content.length = .error ⟨413⟩ := by
    unfold validate_file_size
    simp [hsize]
  simp [hname, htype, hv]

/-- Witness for C3 at a concrete oversize upload. -/
theorem oversize_upload_rejected_413_witness :
    upload_file 2 ["text/plain".data] "a.txt".data "text/plain".data
      [1, 2, 3] "id1".data 0 true true true ⟨[], []⟩
      = (.error ⟨413⟩, ⟨[], []⟩) :=
  oversize_upload_rejected_413 2 ["text/plain".data] "a.txt".data
    "text/plain".data [1, 2, 3] "id1".data 0 true true ⟨[], []⟩
    (by decide) (by rfl) (by decide)

/-- C9 counterexample.  The claim states that with the configured
allow-list `*/*` the validator accepts an upload only when its content
type is literally the string `*/*`.  In fact the wildcard branch of
`_validate_file_type` compares prefixes: the content type `*/x` is not
the string `*/*`, yet it passes validation. -/
theorem star_star_accepts_non_literal :
    validate_file_type (allowed_file_types_list "*/*".data) "*/x".data
      = .ok ()
    ∧ "*/x".data ≠ "*/*".data := by
  constructor
  · rfl
  · decide

/-- C9 (amended).  With `allowed_file_types = "*/*"` (documented as
"use `*/*` for all"), the allow-list is the single entry `*/*`, and the
validator accepts a content type exactly when it starts with the two
characters `*/`; every ordinary MIME type such as `image/png` is
rejected, and such an upload fails with status 400 before any store
write. -/
theorem star_star_list_rejects_ordinary_types :
    allowed_file_types_list "*/*".data = ["*/*".data]
    ∧ (∀ ct : List Char,
        validate_file_type (allowed_file_types_list "*/*".data) ct = .ok ()
          ↔ ['*', '/'].isPrefixOf ct = true)
    ∧ (∀ (maxSize : Nat) (filename : List Char) (content : List Nat)
        (fid : List Char) (now : Nat) (readOk putOk insertOk : Bool)
        (s : StoreState),
        upload_file maxSize (allowed_file_types_list "*/*".data) filename
          "image/png".data content fid now readOk putOk insertOk s
          = (.error ⟨400⟩, s)) := by
  refine ⟨by decide, ?_, ?_⟩
  · intro ct
    have hb : isAllowedType (allowed_file_types_list "*/*".data) ct
        = ['*', '/'].isPrefixOf ct := by
      show ((if ['/', '*'].isSuffixOf "*/*".data then
              (("*/*".data.takeWhile (fun c => c ≠ '/')) ++ ['/']).isPrefixOf ct
            else decide (ct = "*/*".data)) || false)
          = ['*', '/'].isPrefixOf ct
      rw [Bool.or_false]
      rfl
    unfold validate_file_type
    by_cases hct : ct = []
    · subst hct
      simp
    · rw [if_neg hct, hb]
      by_cases hp : ['*', '/'].isPrefixOf ct = true
      · simp [hp]
      · simp [hp]
  · intro maxSize filename content fid now readOk putOk insertOk s
    unfold upload_file
    by_cases hf : filename = []
    · simp [hf]
    · have hv : validate_file_type (allowed_file_types_list "*/*".data)
          "image/png".data = .error ⟨400⟩ := by rfl
      simp [hf, hv]

theorem not_mem_pyReplaceChar_self (c : Char) (l : List Char)
    (hc : c ≠ '_') : c ∉ pyReplaceChar l c := by
  intro hmem
  simp only [pyReplaceChar, List.mem_map] at hmem
  obtain ⟨x, _, hx⟩ := hmem
  by_cases hxc : x = c
  · rw [if_pos hxc] at hx
    exact hc hx.symm
  · rw [if_neg hxc] at hx
    exact hxc hx

theorem not_mem_pyReplaceChar (c e : Char) (l : List Char)
    (hc : c ≠ '_') (h : c ∉ l) : c ∉ pyReplaceChar l e := by
  intro hmem
  simp only [pyReplaceChar, List.mem_map] at hmem
  obtain ⟨x, hxl, hx⟩ := hmem
  by_cases hxe : x = e
  · rw [if_pos hxe] at hx
    exact hc hx.symm
  · rw [if_neg hxe] at hx
    exact h (hx ▸ hxl)

theorem not_mem_foldl_pyReplaceChar (cs : List Char) (l : List Char)
    (c : Char) (hc : c ≠ '_') (h : c ∈ cs ∨ c ∉ l) :
    c ∉ cs.foldl pyReplaceChar l := by
  induction cs generalizing l with
  | nil =>
    rcases h with h | h
    · exact absurd h (List.not_mem_nil c)
    · exact h
  | cons d ds ih =>
    rw [List.foldl_cons]
    apply ih
    rcases h with h | h
    · rcases List.mem_cons.mp h with rfl | h
      · exact Or.inr (not_mem_pyReplaceChar_self c l hc)
      · exact Or.inl h
    · exact Or.inr (not_mem_pyReplaceChar c d l hc h)

theorem splitext_fst_subset (l : List Char) : (splitext l).1 ⊆ l := by
  unfold splitext
  dsimp only
  split
  · exact fun _ h => h
  · split
    · exact List.take_subset _ l
    · exact fun _ h => h

theorem splitext_snd_subset (l : List Char) : (splitext l).2 ⊆ l := by
  unfold splitext
  dsimp only
  split
  · exact List.nil_subset l
  · split
    · exact List.drop_subset _ l
    · exact List.nil_subset l

theorem pySlice_subset (l : List Char) (n : Int) : pySlice l n ⊆ l := by
  unfold pySlice
  split
  · exact List.take_subset _ l
  · exact List.take_subset _ l

theorem truncate255_subset (l : List Char) : truncate255 l ⊆ l := by
  unfold truncate255
  split
  · intro x hx
    rcases List.mem_append.mp hx with h | h
    · exact splitext_fst_subset l (pySlice_subset _ _ h)
    · exact splitext_snd_subset l h
  · exact fun _ h => h

/-- C7.  For every input filename, the name produced by
`_sanitize_filename` (used by both upload and rename before storage)
contains none of the reserved characters `< > : " | ? * \ /`. -/
theorem sanitized_name_has_no_reserved_char (filename : List Char)
    (c : Char) (hc : c ∈ dangerous_chars) :
    c ∉ sanitize_filename filename := by
  have hcu : c ≠ '_' := by
    have hall : ∀ x ∈ dangerous_chars, x ≠ '_' := by decide
    exact hall c hc
  unfold sanitize_filename
  split
  · have hall : ∀ x ∈ dangerous_chars, x ∉ "unnamed_file".data := by decide
    exact hall c hc
  · intro hmem
    exact not_mem_foldl_pyReplaceChar dangerous_chars (pyBasename filename) c
      hcu (Or.inl hc) (truncate255_subset _ hmem)

/-- Witness for C7: the sanitized form of `a/b<c.txt` contains neither
`<` (a reserved character) nor any path separator. -/
theorem sanitized_name_has_no_reserved_char_witness :
    '<' ∈ dangerous_chars ∧ '<' ∉ sanitize_filename "a/b<c.txt".data :=
  ⟨by decide,
   sanitized_name_has_no_reserved_char "a/b<c.txt".data '<' (by decide)⟩

theorem findOne_append_some (l : List FileDoc) (d : FileDoc)
    (fid : List Char) (hd : d.file_id = fid) :
    ∃ x, findOne (l ++ [d]) fid = some x := by
  induction l with
  | nil => exact ⟨d, by simp [findOne, hd]⟩
  | cons a as ih =>
    by_cases ha : a.file_id = fid
    · exact ⟨a, by simp [findOne, ha]⟩
    · obtain ⟨x, hx⟩ := ih
      exact ⟨x, by simpa [findOne, ha] using hx⟩

/-- C2.  If an upload succeeds (returns a document and a new store
state), then downloading by the `file_id` of the returned document from
the new state succeeds and returns exactly the uploaded bytes. -/
theorem upload_then_download_roundtrip (maxSize : Nat)
    (allowed : List (List Char)) (filename content_type : List Char)
    (content : List Nat) (fid : List Char) (now : Nat)
    (readOk putOk insertOk : Bool) (s : StoreState)
    (doc : FileDoc) (s2 : StoreState)
    (hfid : fid ≠ [])
    (h : upload_file maxSize allowed filename content_type content fid now
          readOk putOk insertOk s = (.ok doc, s2)) :
    ∃ d, download_file doc.file_id s2 = .ok (content, d) := by
  unfold upload_file at h
  split at h
  · simp at h
  · split at h
    · simp at h
    · split at h
      · simp at h
      · split at h
        · simp at h
        · split at h
          · simp at h
          · split at h
            · simp at h
            · simp only [Prod.mk.injEq, Except.ok.injEq] at h
              obtain ⟨h1, h2⟩ := h
              subst h1
              subst h2
              unfold download_file
              rw [if_neg hfid]
              obtain ⟨x, hx⟩ := findOne_append_some s.docs
                { file_id := fid, name := sanitize_filename filename,
                  size := content.length, content_type := content_type,
                  upload_date := now,
                  extension := (splitext (sanitize_filename filename)).2 }
                fid rfl
              rw [hx]
              rw [getObject_putObject]
              exact ⟨x, rfl⟩

/-- Witness for C2 at a concrete successful upload. -/
theorem upload_then_download_roundtrip_witness :
    ∃ d, download_file
        ((upload_file 100 ["text/plain".data] "a.txt".data
            "text/plain".data [1, 2, 3] "id1".data 7 true true true
            ⟨[], []⟩).2.docs.headD
          { file_id := [], name := [], size := 0, content_type := [],
            upload_date := 0, extension := [] }).file_id
        (upload_file 100 ["text/plain".data] "a.txt".data
            "text/plain".data [1, 2, 3] "id1".data 7 true true true
            ⟨[], []⟩).2 = .ok ([1, 2, 3], d) :=
  upload_then_download_roundtrip 100 ["text/plain".data] "a.txt".data
    "text/plain".data [1, 2, 3] "id1".data 7 true true true ⟨[], []⟩
    _ _ (by decide) (by rfl)

theorem updateName_eq_set (l : List FileDoc) (fid nm : List Char)
    (d : FileDoc) (h : findOne l fid = some d) :
    ∃ j, ∃ hj : j < l.length,
      updateName l fid nm = l.set j { l.get ⟨j, hj⟩ with name := nm }
      ∧ (l.get ⟨j, hj⟩).file_id = fid := by
  induction l with
  | nil => simp [findOne] at h
  | cons a as ih =>
    by_cases ha : a.file_id = fid
    · exact ⟨0, Nat.succ_pos as.length, by simp [updateName, ha], ha⟩
    · rw [findOne, if_neg ha] at h
      obtain ⟨j, hj, h1, h2⟩ := ih h
      refine ⟨j + 1, Nat.succ_lt_succ hj, ?_, ?_⟩
      · simp [updateName, ha, h1]
      · simpa using h2

/-- C5.  A successful rename leaves the object store untouched and
changes the document list only at one position, replacing that document
by a copy whose `name` is the sanitized new name: `file_id`, `size`,
`content_type`, `extension` and `upload_date` of every record are
unchanged. -/
theorem rename_changes_only_name (fid nm : List Char) (uOk : Bool)
    (s s2 : StoreState)
    (h : update_file_name fid nm uOk s = (.ok (), s2)) :
    s2.objects = s.objects
    ∧ ∃ j, ∃ hj : j < s.docs.length,
        s2.docs = s.docs.set j
          { s.docs.get ⟨j, hj⟩ with name := sanitize_filename nm }
        ∧ (s.docs.get ⟨j, hj⟩).file_id = fid := by
  unfold update_file_name at h
  split at h
  · simp at h
  · split at h
    · simp at h
    · split at h
      · simp at h
      · rename_i d heq
        split at h
        · simp at h
        · simp only [Prod.mk.injEq] at h
          obtain ⟨-, h2⟩ := h
          subst h2
          exact ⟨rfl, updateName_eq_set s.docs fid (sanitize_filename nm) d heq⟩

/-- Witness for C5 at a concrete successful rename. -/
theorem rename_changes_only_name_witness :
    ((update_file_name "id1".data "b.txt".data true
        ⟨[("id1".data, [1])],
         [{ file_id := "id1".data, name := "a.txt".data, size := 1,
            content_type := "text/plain".data, upload_date := 7,
            extension := ".txt".data }]⟩).2).objects
      = (⟨[("id1".data, [1])],
         [{ file_id := "id1".data, name := "a.txt".data, size := 1,
            content_type := "text/plain".data, upload_date := 7,
            extension := ".txt".data }]⟩ : StoreState).objects
    ∧ ∃ j, ∃ hj : j < (⟨[("id1".data, [1])],
         [{ file_id := "id1".data, name := "a.txt".data, size := 1,
            content_type := "text/plain".data, upload_date := 7,
            extension := ".txt".data }]⟩ : StoreState).docs.length,
        ((update_file_name "id1".data "b.txt".data true
        ⟨[("id1".data, [1])],
         [{ file_id := "id1".data, name := "a.txt".data, size := 1,
            content_type := "text/plain".data, upload_date := 7,
            extension := ".txt".data }]⟩).2).docs
          = (⟨[("id1".data, [1])],
         [{ file_id := "id1".data, name := "a.txt".data, size := 1,
            content_type := "text/plain".data, upload_date := 7,
            extension := ".txt".data }]⟩ : StoreState).docs.set j
            { (⟨[("id1".data, [1])],
         [{ file_id := "id1".data, name := "a.txt".data, size := 1,
            content_type := "text/plain".data, upload_date := 7,
            extension := ".txt".data }]⟩ : StoreState).docs.get ⟨j, hj⟩
              with name := sanitize_filename "b.txt".data }
        ∧ ((⟨[("id1".data, [1])],
         [{ file_id := "id1".data, name := "a.txt".data, size := 1,
            content_type := "text/plain".data, upload_date := 7,
            extension := ".txt".data }]⟩ : StoreState).docs.get ⟨j, hj⟩).file_id
            = "id1".data :=
  rename_changes_only_name "id1".data "b.txt".data true _ _ (by rfl)

theorem findOne_eq_none_of_count_zero (l : List FileDoc) (fid : List Char)
    (h : countMatching l fid = 0) : findOne l fid = none := by
  induction l with
  | nil => rfl
  | cons a as ih =>
    by_cases ha : a.file_id = fid
    · simp [countMatching, ha] at h
    · rw [countMatching, if_neg ha] at h
      rw [findOne, if_neg ha]
      exact ih (by omega)

theorem findOne_deleteOne (l : List FileDoc) (fid : List Char)
    (h : countMatching l fid ≤ 1) :
    findOne (deleteOne l fid) fid = none := by
  induction l with
  | nil => rfl
  | cons a as ih =>
    by_cases ha : a.file_id = fid
    · rw [deleteOne, if_pos ha]
      rw [countMatching, if_pos ha] at h
      exact findOne_eq_none_of_count_zero as fid (by omega)
    · rw [deleteOne, if_neg ha, findOne, if_neg ha]
      rw [countMatching, if_neg ha] at h
      exact ih (by omega)

/-- C6.  After a successful delete of a file id (the ids stored by
upload are unique UUID keys, so at most one document carries the id),
any subsequent download, rename with a non-empty name, or delete on that
id fails with a 404 not-found error and leaves the state unchanged. -/
theorem delete_then_operations_not_found (fid : List Char)
    (removeOk deleteOk : Bool) (s s2 : StoreState)
    (huniq : countMatching s.docs fid ≤ 1)
    (h : delete_file fid removeOk deleteOk s = (.ok (), s2)) :
    download_file fid s2 = .error ⟨404⟩
    ∧ (∀ (nm : List Char) (uOk : Bool), nm ≠ [] →
        update_file_name fid nm uOk s2 = (.error ⟨404⟩, s2))
    ∧ (∀ rOk dOk : Bool, delete_file fid rOk dOk s2 = (.error ⟨404⟩, s2)) := by
  unfold delete_file at h
  split at h
  · simp at h
  · rename_i hfid
    split at h
    · simp at h
    · split at h
      · simp at h
      · split at h
        · simp at h
        · simp only [Prod.mk.injEq] at h
          obtain ⟨-, h2⟩ := h
          subst h2
          have hnone : findOne (deleteOne s.docs fid) fid = none :=
            findOne_deleteOne s.docs fid huniq
          refine ⟨?_, ?_, ?_⟩
          · unfold download_file
            rw [if_neg hfid]
            dsimp only
            rw [hnone]
          · intro nm uOk hnm
            unfold update_file_name
            rw [if_neg hfid, if_neg hnm]
            dsimp only
            rw [hnone]
          · intro rOk dOk
            unfold delete_file
            rw [if_neg hfid]
            dsimp only
            rw [hnone]

/-- Witness for C6 at a concrete delete. -/
theorem delete_then_operations_not_found_witness :
    download_file "id1".data
        (delete_file "id1".data true true
          ⟨[("id1".data, [1])],
           [{ file_id := "id1".data, name := "a.txt".data, size := 1,
              content_type := "text/plain".data, upload_date := 7,
              extension := ".txt".data }]⟩).2 = .error ⟨404⟩
    ∧ (∀ (nm : List Char) (uOk : Bool), nm ≠ [] →
        update_file_name "id1".data nm uOk
          (delete_file "id1".data true true
            ⟨[("id1".data, [1])],
             [{ file_id := "id1".data, name := "a.txt".data, size := 1,
                content_type := "text/plain".data, upload_date := 7,
                extension := ".txt".data }]⟩).2
          = (.error ⟨404⟩,
             (delete_file "id1".data true true
              ⟨[("id1".data, [1])],
               [{ file_id := "id1".data, name := "a.txt".data, size := 1,
                  content_type := "text/plain".data, upload_date := 7,
                  extension := ".txt".data }]⟩).2))
    ∧ (∀ rOk dOk : Bool,
        delete_file "id1".data rOk dOk
          (delete_file "id1".data true true
            ⟨[("id1".data, [1])],
             [{ file_id := "id1".data, name := "a.txt".data, size := 1,
                content_type := "text/plain".data, upload_date := 7,
                extension := ".txt".data }]⟩).2
          = (.error ⟨404⟩,
             (delete_file "id1".data true true
              ⟨[("id1".data, [1])],
               [{ file_id := "id1".data, name := "a.txt".data, size := 1,
                  content_type := "text/plain".data, upload_date := 7,
                  extension := ".txt".data }]⟩).2)) :=
  delete_then_operations_not_found "id1".data true true
    ⟨[("id1".data, [1])],
     [{ file_id := "id1".data, name := "a.txt".data, size := 1,
        content_type := "text/plain".data, upload_date := 7,
        extension := ".txt".data }]⟩ _ (by decide) (by rfl)

/-- C10.  The object-store write happens before the metadata insert: if
every step up to and including `put_object` succeeds but `insert_one`
fails, the upload surfaces a 500 server error, the collection holds no
record with the generated (fresh) `file_id`, and the uploaded object
remains orphaned in the object store. -/
theorem insert_failure_no_record_orphan_object (maxSize : Nat)
    (allowed : List (List Char)) (filename content_type : List Char)
    (content : List Nat) (fid : List Char) (now : Nat) (s : StoreState)
    (hname : filename ≠ [])
    (htype : validate_file_type allowed content_type = .ok ())
    (hsize : content.length ≤ maxSize)
    (hfresh : findOne s.docs fid = none) :
    upload_file maxSize allowed filename content_type content fid now
        true true false s
      = (.error ⟨500⟩,
         { objects := putObject s.objects fid content, docs := s.docs })
    ∧ findOne (upload_file maxSize allowed filename content_type content
        fid now true true false s).2.docs fid = none
    ∧ getObject (upload_file maxSize allowed filename content_type content
        fid now true true false s).2.objects fid = some content := by
  have hvs : validate_file_size maxSize content.length = .ok () := by
    unfold validate_file_size
    rw [if_neg (by omega)]
  have h1 : upload_file maxSize allowed filename content_type content fid
      now true true false s
      = (.error ⟨500⟩,
         { objects := putObject s.objects fid content, docs := s.docs }) := by
    unfold upload_file
    simp [hname, htype, hvs]
  refine ⟨h1, ?_, ?_⟩
  · rw [h1]
    exact hfresh
  · rw [h1]
    exact getObject_putObject s.objects fid content

/-- Witness for C10 at a concrete failing insert. -/
theorem insert_failure_no_record_orphan_object_witness :
    upload_file 100 ["text/plain".data] "a.txt".data "text/plain".data
        [1, 2] "id1".data 7 true true false ⟨[], []⟩
      = (.error ⟨500⟩,
         { objects := putObject [] "id1".data [1, 2], docs := [] })
    ∧ findOne (upload_file 100 ["text/plain".data] "a.txt".data
        "text/plain".data [1, 2] "id1".data 7 true true false
        ⟨[], []⟩).2.docs "id1".data = none
    ∧ getObject (upload_file 100 ["text/plain".data] "a.txt".data
        "text/plain".data [1, 2] "id1".data 7 true true false
        ⟨[], []⟩).2.objects "id1".data = some [1, 2] :=
  insert_failure_no_record_orphan_object 100 ["text/plain".data]
    "a.txt".data "text/plain".data [1, 2] "id1".data 7 ⟨[], []⟩
    (by decide) (by rfl) (by decide) (by rfl)

theorem connectLoop_le_attempts (ok : Nat → Bool) (d : ℚ) (fuel : Nat) :
    ∀ (a : Nat) (ds : List ℚ), a ≤ (connectLoop ok d fuel a ds).attempts := by
  induction fuel with
  | zero => intro a ds; exact Nat.le_refl a
  | succ fuel ih =>
    intro a ds
    rw [connectLoop]
    split
    · exact Nat.le_succ a
    · exact Nat.le_trans (Nat.le_succ a) (ih (a + 1) _)

theorem connectLoop_attempts_le (ok : Nat → Bool) (d : ℚ) (fuel : Nat) :
    ∀ (a : Nat) (ds : List ℚ),
      (connectLoop ok d fuel a ds).attempts ≤ a + fuel := by
  induction fuel with
  | zero => intro a ds; exact Nat.le_refl a
  | succ fuel ih =>
    intro a ds
    rw [connectLoop]
    split
    · show a + 1 ≤ a + (fuel + 1)
      omega
    · have := ih (a + 1) (if a = 0 then ds else ds ++ [d * 2 ^ (a - 1)])
      omega

theorem connectLoop_delays_eq (ok : Nat → Bool) (d : ℚ) (fuel : Nat) :
    ∀ (a : Nat) (ds : List ℚ),
      (connectLoop ok d fuel a ds).delays
        = ds ++ geomDelays d a ((connectLoop ok d fuel a ds).attempts - a) := by
  induction fuel with
  | zero =>
    intro a ds
    show ds = ds ++ geomDelays d a (a - a)
    rw [Nat.sub_self]
    simp [geomDelays]
  | succ fuel ih =>
    intro a ds
    rw [connectLoop]
    split
    · show (if a = 0 then ds else ds ++ [d * 2 ^ (a - 1)])
          = ds ++ geomDelays d a (a + 1 - a)
      have h1 : a + 1 - a = 1 := by omega
      rw [h1]
      by_cases ha : a = 0
      · simp [ha, geomDelays]
      · simp [ha, geomDelays]
    · rw [ih (a + 1) _]
      have hA := connectLoop_le_attempts ok d fuel (a + 1)
        (if a = 0 then ds else ds ++ [d * 2 ^ (a - 1)])
      have h2 : (connectLoop ok d fuel (a + 1)
            (if a = 0 then ds else ds ++ [d * 2 ^ (a - 1)])).attempts - a
          = ((connectLoop ok d fuel (a + 1)
              (if a = 0 then ds else ds ++ [d * 2 ^ (a - 1)])).attempts
             - (a + 1)) + 1 := by omega
      rw [h2, geomDelays]
      by_cases ha : a = 0
      · simp [ha]
      · simp [ha, List.append_assoc]

theorem geomDelays_succ_base (d : ℚ) (n : Nat) :
    ∀ a : Nat, geomDelays d (a + 1) n
      = (List.range n).map (fun k => d * 2 ^ (a + k)) := by
  induction n with
  | zero => intro a; rfl
  | succ n ih =>
    intro a
    rw [geomDelays, if_neg (Nat.succ_ne_zero a), ih (a + 1)]
    rw [List.range_succ_eq_map]
    simp only [List.map_cons, List.map_map, List.singleton_append,
      Nat.add_sub_cancel, Nat.add_zero]
    refine congrArg₂ List.cons rfl ?_
    apply List.map_congr_left
    intro k _
    simp only [Function.comp_apply]
    have hk : a + 1 + k = a + (k + 1) := by omega
    rw [hk]

theorem connectLoop_delays_formula (ok : Nat → Bool) (d : ℚ) (maxR : Nat) :
    (connectLoop ok d maxR 0 []).delays
      = (List.range ((connectLoop ok d maxR 0 []).attempts - 1)).map
          (fun k => d * 2 ^ k) := by
  rw [connectLoop_delays_eq ok d maxR 0 [], Nat.sub_zero, List.nil_append]
  generalize (connectLoop ok d maxR 0 []).attempts = A
  cases A with
  | zero => simp [geomDelays]
  | succ n =>
    rw [geomDelays, if_pos rfl, List.nil_append, geomDelays_succ_base d n 0]
    simp

theorem connectLoop_exhaust (ok : Nat → Bool) (d : ℚ) (fuel : Nat) :
    ∀ (a : Nat) (ds : List ℚ),
      (∀ k, a ≤ k → k < a + fuel → ok k = false) →
      (connectLoop ok d fuel a ds).success = false
      ∧ (connectLoop ok d fuel a ds).attempts = a + fuel := by
  induction fuel with
  | zero => intro a ds _; exact ⟨rfl, rfl⟩
  | succ fuel ih =>
    intro a ds h
    rw [connectLoop]
    have hok : ok a = false := h a (Nat.le_refl a) (by omega)
    rw [hok]
    simp only [Bool.false_eq_true, if_false]
    have hrec := ih (a + 1) (if a = 0 then ds else ds ++ [d * 2 ^ (a - 1)])
      (fun k hk1 hk2 => h k (by omega) (by omega))
    exact ⟨hrec.1, by rw [hrec.2]; omega⟩

/-- C8.  The routine `connect_with_retry` attempts each store at most `max_retries`
times; the list of delays slept before the retries of either store is
exactly `initial_delay * 2 ^ k` for `k = 0, 1, ...` (so the delay before
attempt `k+1` is `initial_delay * 2^(k-1)`, doubling between attempts);
a store whose connect calls all fail is attempted exactly `max_retries`
times without success; and the MinIO loop is independent of the MongoDB
loop's outcome, so the second store is attempted even when the first
exhausts all its retries. -/
theorem connect_with_retry_spec (mongoOk minioOk : Nat → Bool) (d : ℚ)
    (maxR : Nat) :
    (connect_with_retry mongoOk minioOk d maxR).mongodb.attempts ≤ maxR
    ∧ (connect_with_retry mongoOk minioOk d maxR).minio.attempts ≤ maxR
    ∧ (connect_with_retry mongoOk minioOk d maxR).mongodb.delays
        = (List.range
            ((connect_with_retry mongoOk minioOk d maxR).mongodb.attempts
              - 1)).map (fun k => d * 2 ^ k)
    ∧ (connect_with_retry mongoOk minioOk d maxR).minio.delays
        = (List.range
            ((connect_with_retry mongoOk minioOk d maxR).minio.attempts
              - 1)).map (fun k => d * 2 ^ k)
    ∧ ((∀ k, k < maxR → mongoOk k = false) →
        (connect_with_retry mongoOk minioOk d maxR).mongodb.success = false
        ∧ (connect_with_retry mongoOk minioOk d maxR).mongodb.attempts
            = maxR)
    ∧ (∀ mongoOk2 : Nat → Bool,
        (connect_with_retry mongoOk2 minioOk d maxR).minio
          = (connect_with_retry mongoOk minioOk d maxR).minio) := by
  refine ⟨?_, ?_, ?_, ?_, ?_, ?_⟩
  · simpa using connectLoop_attempts_le mongoOk d maxR 0 []
  · simpa using connectLoop_attempts_le minioOk d maxR 0 []
  · exact connectLoop_delays_formula mongoOk d maxR
  · exact connectLoop_delays_formula minioOk d maxR
  · intro h
    have hrec := connectLoop_exhaust mongoOk d maxR 0 []
      (fun k _ hk2 => h k (by omega))
    exact ⟨hrec.1, by simpa using hrec.2⟩
  · intro mongoOk2
    rfl

/-- Witness for C8: with three always-failing MongoDB connects and MinIO
succeeding at its second attempt, MongoDB is attempted exactly 3 times
without success and the MinIO delays follow the doubling formula. -/
theorem connect_with_retry_spec_witness :
    (connect_with_retry (fun _ => false) (fun k => k = 1) 1 3).mongodb.success
      = false
    ∧ (connect_with_retry (fun _ => false) (fun k => k = 1) 1 3).mongodb.attempts
      = 3
    ∧ (connect_with_retry (fun _ => false) (fun k => k = 1) 1 3).minio.delays
      = (List.range
          ((connect_with_retry (fun _ => false) (fun k => k = 1) 1
            3).minio.attempts - 1)).map (fun k => (1 : ℚ) * 2 ^ k) := by
  have h := connect_with_retry_spec (fun _ => false) (fun k => k = 1) 1 3
  exact ⟨(h.2.2.2.2.1 (fun k _ => rfl)).1,
    (h.2.2.2.2.1 (fun k _ => rfl)).2, h.2.2.2.1⟩

end FileDrive
